import Mathlib

/-!
Verification development for the sale-transaction processing core of the
stanzo-back point-of-sale backend.

The embedding below models the `POST /api/transactions` handler of
`src/routes/transactions.js` (lines 354-651), together with the parts of the
product data model (`src/models/products.js`) it touches.

Modelling conventions:
* JavaScript numbers are modelled as `ℚ` (all arithmetic appearing in the
  handler - sums, differences, products, divisions by nonzero denominators on
  small literals - is exact in either representation).
* A possibly-absent (`undefined`) request or document field is an `Option`.
  The JavaScript falsy-coalescing `x || d` is `jsOrQ`/`jsOrS` below
  (`undefined`, `0` and the empty string are falsy); an ES6 destructuring
  default (which fires on `undefined` only) is `Option.getD`.
* The MongoDB session (`session.withTransaction`) gives all-or-nothing
  semantics: writes issued with `{ session }` become visible only if the
  callback returns without throwing.  The handler is therefore modelled as a
  fallible computation threading a session-local database; when it throws,
  `processSale` yields the original store (rollback), and the thrown error is
  mapped to an HTTP response exactly as in the handler's `catch` block.
* Dates, `Math.random`, logging and mongoose `populate` decoration are not
  modelled; no claim depends on them.  Where a generated value (transaction
  number) would appear, it is passed as an explicit parameter.

A central fact about the source, used repeatedly below: at line 508 the
handler evaluates `totalCost || calculatedTotalCost` (and line 509 evaluates
`totalProfit || calculatedTotalProfit`), but neither `totalCost` nor
`totalProfit` is bound anywhere in scope - the destructuring at lines 361-382
does not include them, and no enclosing scope declares them.  Reading an
undeclared identifier throws `ReferenceError: totalCost is not defined`, so
every request that finishes the item loop aborts with a 500
`TRANSACTION_FAILED` response and a full rollback.  This is modelled by the
`SaleError.refErrorTotalCost` outcome.
-/

/- The `Rat` field operations ship `[irreducible]`; re-exposing their
definitions lets `decide` evaluate the model on concrete scenarios. -/
set_option allowUnsafeReducibility true in
attribute [semireducible] Rat.add Rat.sub Rat.mul Rat.ofScientific Rat.inv

/-- JavaScript `x || d` for a possibly-undefined number: `undefined` and `0`
are falsy. -/
def jsOrQ (x : Option ℚ) (d : ℚ) : ℚ :=
  match x with
  | none => d
  | some v => if v = 0 then d else v

/-- JavaScript `x || d` for a possibly-undefined string: `undefined` and the
empty string are falsy. -/
def jsOrS (x : Option String) (d : String) : String :=
  match x with
  | none => d
  | some s => if s = "" then d else s

/-- JavaScript `String.prototype.toLowerCase` (the payment methods compared
against it are ASCII). -/
def jsToLower (s : String) : String := ⟨s.data.map Char.toLower⟩

/-- A stock-history entry as pushed by the handler at lines 478-488
(`date`/`lastSold` timestamps are not modelled). -/
structure StockEvent where
  type : String
  quantity : ℚ
  newStock : ℚ
  reference : String
  shop : String
  cashier : String
deriving DecidableEq, Repr

/-- A catalog product as read and written by the handler.  `sellingPrice` is
read at line 445 although the mongoose schema does not declare it, so on a
schema-conforming document it is `none`. -/
structure Product where
  id : String
  name : String
  category : Option String
  barcode : Option String
  buyingPrice : Option ℚ
  minSellingPrice : Option ℚ
  sellingPrice : Option ℚ
  currentStock : Option ℚ
  stockHistory : List StockEvent
deriving DecidableEq, Repr

/-- The product collection. -/
abbrev ProductDB := List Product

/-- One entry of the request's `items` array (lines 429-467 read exactly
these fields). -/
structure SaleItem where
  productId : Option String
  quantity : Option ℚ
  unitPrice : Option ℚ
  price : Option ℚ
  totalPrice : Option ℚ
  productName : Option String
  category : Option String
  barcode : Option String
deriving DecidableEq, Repr

/-- The request body fields destructured at lines 361-382 (minus `saleDate`,
a date). -/
structure SaleRequest where
  saleType : Option String
  status : Option String
  paymentMethod : Option String
  totalAmount : Option ℚ
  amountPaid : Option ℚ
  changeGiven : Option ℚ
  subtotal : Option ℚ
  taxAmount : Option ℚ
  discountAmount : Option ℚ
  items : Option (List SaleItem)
  customerName : Option String
  customerPhone : Option String
  shop : Option String
  shopId : Option String
  shopName : Option String
  cashierId : Option String
  cashierName : Option String
  notes : Option String
  transactionNumber : Option String
deriving DecidableEq, Repr

/-- A priced line item as pushed into `transactionItems` (lines 455-467). -/
structure TxnItem where
  productId : Option String
  productName : String
  category : String
  barcode : String
  quantity : ℚ
  unitPrice : ℚ
  price : ℚ
  totalPrice : ℚ
  costPrice : ℚ
  profit : ℚ
  profitMargin : ℚ
deriving DecidableEq, Repr

/-- One entry of the `stockUpdates` summary (lines 494-500). -/
structure StockUpdate where
  productId : Option String
  productName : String
  oldStock : ℚ
  newStock : ℚ
  quantitySold : ℚ
deriving DecidableEq, Repr

/-- The Transaction document as constructed at lines 516-541 (dates, receipt
number and `createdBy` are not modelled; the generated transaction number is
a parameter). -/
structure TransactionRec where
  saleType : String
  status : String
  paymentMethod : String
  totalAmount : ℚ
  amountPaid : ℚ
  changeGiven : ℚ
  subtotal : ℚ
  taxAmount : ℚ
  discountAmount : ℚ
  items : List TxnItem
  customerName : String
  customerPhone : String
  shop : String
  shopName : String
  cashierId : String
  cashierName : String
  notes : String
  transactionNumber : String
  totalCost : ℚ
  totalProfit : ℚ
  profitMargin : ℚ
deriving DecidableEq, Repr

/-- The persistent store touched by the handler: the product collection and
the transaction collection. -/
structure Store where
  products : ProductDB
  transactions : List TransactionRec
deriving DecidableEq, Repr

/-- Errors thrown inside the `withTransaction` callback.  The first two are
the typed `throw new Error(...)` at lines 433 and 441 (carrying the data
interpolated into the message); `typeErrorToLowerCase` is the `TypeError`
raised at line 398 when `paymentMethod` is `undefined`; `refErrorTotalCost`
is the `ReferenceError` raised at line 508 by the unbound `totalCost`. -/
inductive SaleError where
  | productNotFound (productId : String)
  | insufficientStock (productName : String) (available requested : ℚ)
  | typeErrorToLowerCase
  | refErrorTotalCost
deriving DecidableEq, Repr

/-- The HTTP responses the handler can produce, with the data each carries. -/
inductive SaleResponse where
  | shopRequired
  | validationFailed (errors : List String)
  | insufficientStock (productName : String) (available requested : ℚ)
  | productNotFound (productId : String)
  | transactionFailed (message : String)
  | created (txn : TransactionRec) (stockUpdates : List StockUpdate)
deriving DecidableEq, Repr

/-- HTTP status code of each response (lines 389, 407, 598, 625, 634, 642). -/
def SaleResponse.statusCode : SaleResponse → Nat
  | .shopRequired => 400
  | .validationFailed _ => 400
  | .insufficientStock _ _ _ => 400
  | .productNotFound _ => 404
  | .transactionFailed _ => 500
  | .created _ _ => 201

/-- The machine-readable `code` field of the error responses (lines 629, 638,
646); the earlier 400 responses carry no `code`. -/
def SaleResponse.errCode : SaleResponse → Option String
  | .insufficientStock _ _ _ => some "INSUFFICIENT_STOCK"
  | .productNotFound _ => some "PRODUCT_NOT_FOUND"
  | .transactionFailed _ => some "TRANSACTION_FAILED"
  | _ => none

/-- Whether a response is the 201 success. -/
def SaleResponse.isCreated : SaleResponse → Bool
  | .created _ _ => true
  | _ => false

/-- The `catch` block at lines 620-647: an error whose message contains
`Insufficient stock` maps to 400 `INSUFFICIENT_STOCK`, one containing
`Product not found` maps to 404 `PRODUCT_NOT_FOUND`, anything else to 500
`TRANSACTION_FAILED`.  The two thrown template messages contain exactly those
substrings; the `TypeError` and `ReferenceError` messages contain neither. -/
def catchMap : SaleError → SaleResponse
  | .productNotFound pid => .productNotFound pid
  | .insufficientStock n a r => .insufficientStock n a r
  | .typeErrorToLowerCase =>
      .transactionFailed "Cannot read properties of undefined reading toLowerCase"
  | .refErrorTotalCost => .transactionFailed "totalCost is not defined"

/-- `shopId || shop` at line 385; truthiness of the result is tested at
line 388 (the empty string stands for a missing value). -/
def finalShopIdOf (req : SaleRequest) : String :=
  jsOrS req.shopId (jsOrS req.shop "")

/-- The transaction status after the destructuring default at line 363. -/
def statusOf (req : SaleRequest) : String :=
  req.status.getD "completed"

/-- The accepted payment methods (line 398). -/
def acceptedPaymentMethods : List String := ["cash", "mpesa", "bank", "card"]

/-- The `validationErrors` list built at lines 396-403, for a present
`paymentMethod` value `pm` (when `paymentMethod` is `undefined` line 398
throws a `TypeError` before the list is ever inspected). -/
def validationErrors (pm : String) (req : SaleRequest) : List String :=
  (if pm = "" then ["Payment method is required"] else []) ++
  (if jsToLower pm ∈ acceptedPaymentMethods then []
   else ["Payment method must be cash, mpesa, bank, or card"]) ++
  (match req.totalAmount with
   | none => ["Valid total amount is required"]
   | some t => if t ≤ 0 then ["Valid total amount is required"] else []) ++
  (match req.items with
   | none => ["Transaction items are required"]
   | some l => if l = [] then ["Transaction items are required"] else []) ++
  (if jsOrS req.cashierId "" = "" ∨ jsOrS req.cashierName "" = ""
   then ["Cashier information is required"] else [])

/-- The product lookup of the item loop (lines 421-430): the batch query
fetches the products whose id occurs among the truthy `productId`s, and the
loop looks the item's id up in the resulting map.  A missing or empty id, or
an id matching no document, yields `none`. -/
def lookupProduct (db : ProductDB) : Option String → Option Product
  | none => none
  | some pid => if pid = "" then none else db.find? (fun p => p.id = pid)

/-- The state threaded through the item loop: the running totals
(lines 415-417), the accumulated `transactionItems` and `stockUpdates`
(lines 418-419), and the session-visible product collection written by
`findByIdAndUpdate(..., { session })`. -/
structure LoopState where
  calculatedTotalAmount : ℚ
  calculatedTotalCost : ℚ
  calculatedTotalProfit : ℚ
  transactionItems : List TxnItem
  stockUpdates : List StockUpdate
  sessionProducts : ProductDB
deriving DecidableEq, Repr

/-- The initial loop state over a store. -/
def LoopState.init (db : ProductDB) : LoopState :=
  { calculatedTotalAmount := 0
    calculatedTotalCost := 0
    calculatedTotalProfit := 0
    transactionItems := []
    stockUpdates := []
    sessionProducts := db }

/-- The `findByIdAndUpdate` write at lines 474-492: set `currentStock` and
append the stock-history entry on the matching document. -/
def updateStock (db : ProductDB) (pid : String) (newStock : ℚ)
    (ev : StockEvent) : ProductDB :=
  db.map fun p =>
    if p.id = pid then
      { p with currentStock := some newStock, stockHistory := p.stockHistory ++ [ev] }
    else p

/-- The pricing of one item against its catalog product, lines 444-467.
Pure: depends only on the request item and the product document. -/
def pricedItem (item : SaleItem) (product : Product) : TxnItem :=
  let itemQuantity := jsOrQ item.quantity 1
  let itemPrice :=
    jsOrQ item.unitPrice (jsOrQ item.price
      (jsOrQ product.minSellingPrice (jsOrQ product.sellingPrice 0)))
  let itemCostPrice := jsOrQ product.buyingPrice 0
  let itemTotalPrice := jsOrQ item.totalPrice (itemPrice * itemQuantity)
  let itemCost := itemCostPrice * itemQuantity
  let itemProfit := itemTotalPrice - itemCost
  { productId := item.productId
    productName := jsOrS item.productName product.name
    category := jsOrS item.category (jsOrS product.category "Uncategorized")
    barcode := jsOrS item.barcode (jsOrS product.barcode "")
    quantity := itemQuantity
    unitPrice := itemPrice
    price := itemPrice
    totalPrice := itemTotalPrice
    costPrice := itemCostPrice
    profit := itemProfit
    profitMargin := if 0 < itemTotalPrice then itemProfit / itemTotalPrice * 100 else 0 }

/-- The failure condition of one loop iteration (lines 429-442).  It depends
only on the item, the initial snapshot `db0` (the `productMap` is built once,
before the loop, and is never refreshed) and the transaction status - not on
the session-local writes of earlier iterations. -/
def itemError (db0 : ProductDB) (status : String) (item : SaleItem) : Option SaleError :=
  match lookupProduct db0 item.productId with
  | none => some (.productNotFound (item.productId.getD "undefined"))
  | some product =>
      if status = "completed" ∧ jsOrQ product.currentStock 0 < jsOrQ item.quantity 1 then
        some (.insufficientStock product.name (jsOrQ product.currentStock 0)
          (jsOrQ item.quantity 1))
      else none

/-- One iteration of the item loop (lines 429-503).  `db0` is the snapshot
the `productMap` was built from; `ref`, `shopId` and `cashier` feed the
stock-history entry. -/
def processItem (db0 : ProductDB) (status ref shopId cashier : String)
    (st : LoopState) (item : SaleItem) : Except SaleError LoopState :=
  match lookupProduct db0 item.productId with
  | none => .error (.productNotFound (item.productId.getD "undefined"))
  | some product =>
      let itemQuantity := jsOrQ item.quantity 1
      let currentStock := jsOrQ product.currentStock 0
      if status = "completed" ∧ currentStock < itemQuantity then
        .error (.insufficientStock product.name currentStock itemQuantity)
      else
        let ti := pricedItem item product
        let st1 : LoopState :=
          { st with
            calculatedTotalAmount := st.calculatedTotalAmount + ti.totalPrice
            calculatedTotalCost := st.calculatedTotalCost + ti.costPrice * itemQuantity
            calculatedTotalProfit := st.calculatedTotalProfit + ti.profit
            transactionItems := st.transactionItems ++ [ti] }
        if status = "completed" then
          let newStock := max 0 (currentStock - itemQuantity)
          let ev : StockEvent :=
            { type := "sale"
              quantity := -itemQuantity
              newStock := newStock
              reference := "Transaction: " ++ ref
              shop := shopId
              cashier := cashier }
          .ok { st1 with
                sessionProducts := updateStock st1.sessionProducts product.id newStock ev
                stockUpdates := st1.stockUpdates ++
                  [{ productId := item.productId
                     productName := product.name
                     oldStock := currentStock
                     newStock := newStock
                     quantitySold := itemQuantity }] }
        else .ok st1

/-- The item loop (lines 429-504). -/
def processItems (db0 : ProductDB) (status ref shopId cashier : String)
    (st : LoopState) : List SaleItem → Except SaleError LoopState
  | [] => .ok st
  | item :: rest =>
      match processItem db0 status ref shopId cashier st item with
      | .error e => .error e
      | .ok st1 => processItems db0 status ref shopId cashier st1 rest

/-- The transaction construction at lines 506-541, as it would evaluate with
the unbound identifiers `totalCost`/`totalProfit` reading as `undefined`
(their evident intent - the comment at line 506 reads `Use provided totals
or calculated ones`, and an earlier revision of this route, preserved in the
repository, declares them; at runtime line 508 instead throws, so this code
is unreachable).  `genTxnNum` stands for the timestamp-plus-random generated
number of line 513. -/
def finalizeSale (req : SaleRequest) (st : LoopState) (genTxnNum : String) :
    TransactionRec :=
  let finalTotalAmount := jsOrQ req.totalAmount st.calculatedTotalAmount
  let finalTotalCost := st.calculatedTotalCost
  let finalTotalProfit := st.calculatedTotalProfit
  let profitMargin :=
    if 0 < finalTotalAmount then finalTotalProfit / finalTotalAmount * 100 else 0
  let finalShopId := finalShopIdOf req
  { saleType := req.saleType.getD "retail"
    status := statusOf req
    paymentMethod := jsToLower (req.paymentMethod.getD "")
    totalAmount := finalTotalAmount
    amountPaid := jsOrQ req.amountPaid finalTotalAmount
    changeGiven := req.changeGiven.getD 0
    subtotal := jsOrQ req.subtotal finalTotalAmount
    taxAmount := req.taxAmount.getD 0
    discountAmount := req.discountAmount.getD 0
    items := st.transactionItems
    customerName := req.customerName.getD "Walk-in Customer"
    customerPhone := req.customerPhone.getD ""
    shop := finalShopId
    shopName := jsOrS req.shopName ("Shop " ++ finalShopId)
    cashierId := req.cashierId.getD ""
    cashierName := req.cashierName.getD ""
    notes := req.notes.getD ""
    transactionNumber := jsOrS req.transactionNumber genTxnNum
    totalCost := finalTotalCost
    totalProfit := finalTotalProfit
    profitMargin := profitMargin }

/-- The `POST /api/transactions` handler, lines 354-651.  Control flow:
shop check (line 388) - `TypeError` when `paymentMethod` is `undefined`
(line 398) - collected validation (lines 396-412) - item loop with
session-local stock writes (lines 414-504) - `ReferenceError` from the
unbound `totalCost` (line 508).  An early `return` responds without writes;
a thrown error aborts the session (`withTransaction` rolls every `{ session }`
write back) and is mapped by the `catch` block.  The 201 branch (lines
512-618ps) is unreachable.  Returns the response and the committed store. -/
def processSale (store : Store) (req : SaleRequest) : SaleResponse × Store :=
  if finalShopIdOf req = "" then (.shopRequired, store)
  else
    match req.paymentMethod with
    | none => (catchMap .typeErrorToLowerCase, store)
    | some pm =>
      if validationErrors pm req ≠ [] then
        (.validationFailed (validationErrors pm req), store)
      else
        let items := req.items.getD []
        let ref := jsOrS req.transactionNumber "pending"
        let cashier := req.cashierName.getD ""
        match processItems store.products (statusOf req) ref (finalShopIdOf req)
            cashier (LoopState.init store.products) items with
        | .error e => (catchMap e, store)
        | .ok _ => (catchMap .refErrorTotalCost, store)

theorem processSale_store_eq (store : Store) (req : SaleRequest) :
    (processSale store req).2 = store := by
  unfold processSale
  split
  · rfl
  · split
    · rfl
    · split
      · rfl
      · dsimp only
        split <;> rfl

theorem processSale_never_created (store : Store) (req : SaleRequest) :
    (processSale store req).1.isCreated = false := by
  unfold processSale
  split
  · rfl
  · split
    · rfl
    · split
      · rfl
      · dsimp only
        split
        · rename_i e _
          cases e <;> rfl
        · rfl

/-! ### Concrete scenarios -/

/-- Scenario A product (spec §8): `currentStock=10`, `buyingPrice=5`,
`minSellingPrice=8`. -/
def prodA : Product :=
  { id := "p1"
    name := "Widget"
    category := some "Drinks"
    barcode := some "B001"
    buyingPrice := some 5
    minSellingPrice := some 8
    sellingPrice := none
    currentStock := some 10
    stockHistory := [] }

/-- Store holding just the scenario-A product and no transactions. -/
def storeA : Store := { products := [prodA], transactions := [] }

/-- A request item of quantity `q` for product `pid` with no overrides. -/
def plainItem (pid : String) (q : ℚ) : SaleItem :=
  { productId := some pid
    quantity := some q
    unitPrice := none
    price := none
    totalPrice := none
    productName := none
    category := none
    barcode := none }

/-- A well-formed completed-sale request: payment `cash`, the given total,
one shop and cashier, and the given items. -/
def plainReq (total : ℚ) (items : List SaleItem) : SaleRequest :=
  { saleType := none
    status := some "completed"
    paymentMethod := some "cash"
    totalAmount := some total
    amountPaid := none
    changeGiven := none
    subtotal := none
    taxAmount := none
    discountAmount := none
    items := some items
    customerName := none
    customerPhone := none
    shop := some "shop1"
    shopId := none
    shopName := none
    cashierId := some "c1"
    cashierName := some "Alice"
    notes := none
    transactionNumber := none }

/-- Scenario A request: sale of quantity 3, no overrides. -/
def reqA : SaleRequest := plainReq 24 [plainItem "p1" 3]

/-- The item loop run a request performs, abbreviated. -/
def loopOf (store : Store) (req : SaleRequest) : Except SaleError LoopState :=
  processItems store.products (statusOf req) (jsOrS req.transactionNumber "pending")
    (finalShopIdOf req) (req.cashierName.getD "") (LoopState.init store.products)
    (req.items.getD [])


/-- Scenario E product (spec §8): `currentStock=4`. -/
def prodE : Product :=
  { id := "p2"
    name := "Gadget"
    category := none
    barcode := none
    buyingPrice := some 5
    minSellingPrice := some 8
    sellingPrice := none
    currentStock := some 4
    stockHistory := [] }

/-- Store holding just the scenario-E product. -/
def storeE : Store := { products := [prodE], transactions := [] }

/-- Scenario E request: the same product twice, quantities 2 and 3. -/
def reqE : SaleRequest := plainReq 40 [plainItem "p2" 2, plainItem "p2" 3]

/-- C1: the claim says this request returns 201 with the persisted
Transaction, a stock-update summary and post-sale stock 7.  On the code it
does not: the item loop prices the line exactly as the claim states
(`unitPrice=8`, `totalPrice=24`, line cost 15, `profit=9`,
`profitMargin=37.5`) and decrements the session-local stock to 7, but the
handler then evaluates the unbound identifier `totalCost` at line 508, the
resulting `ReferenceError` aborts the session, and the caller receives 500
`TRANSACTION_FAILED` with the store (including `currentStock=10`) unchanged. -/
theorem claimC1_scenarioA_crashes_at_finalization :
    (processSale storeA reqA).1 = .transactionFailed "totalCost is not defined"
    ∧ (processSale storeA reqA).1.statusCode = 500
    ∧ (processSale storeA reqA).1.errCode = some "TRANSACTION_FAILED"
    ∧ (processSale storeA reqA).2 = storeA
    ∧ (loopOf storeA reqA).toOption.map (fun st => st.transactionItems) =
        some [{ productId := some "p1", productName := "Widget", category := "Drinks",
                barcode := "B001", quantity := 3, unitPrice := 8, price := 8,
                totalPrice := 24, costPrice := 5, profit := 9, profitMargin := 37.5 }]
    ∧ (loopOf storeA reqA).toOption.map (fun st => st.calculatedTotalCost) = some 15
    ∧ (loopOf storeA reqA).toOption.map
        (fun st => st.sessionProducts.map Product.currentStock) = some [some 7] := by
  decide

/-- C3: the claim says a cart holding the same product twice (quantities 2
and 3 against stock 4) fails with `InsufficientStock`.  On the code it does
not: both per-item checks pass independently against the stale `productMap`
snapshot (2 ≤ 4 and 3 ≤ 4), both session-local decrements are issued - the
second overwriting the first, leaving session stock 1 for 5 units sold - and
the request then fails 500 from the line-508 `ReferenceError`, never with
`INSUFFICIENT_STOCK`. -/
theorem claimC3_duplicate_product_checks_pass_independently :
    (processSale storeE reqE).1 = .transactionFailed "totalCost is not defined"
    ∧ (processSale storeE reqE).1.errCode ≠ some "INSUFFICIENT_STOCK"
    ∧ (loopOf storeE reqE).toOption.map (fun st => st.stockUpdates.map StockUpdate.quantitySold) =
        some [2, 3]
    ∧ (loopOf storeE reqE).toOption.map
        (fun st => st.sessionProducts.map Product.currentStock) = some [some 1]
    ∧ (processSale storeE reqE).2 = storeE := by
  decide

/-- C4: the claimed ledger invariant only holds vacuously - the handler
never commits any mutation and never returns 201 (first conjunct), so no
completed sale is ever recorded; and the mutation path the claim describes
is itself wrong: on the duplicate-id cart the session would commit stock 1
after selling 5 units from stock 4, not `initialStock - sold = -1` (each
session write does append a stock-history entry, last conjunct). -/
theorem claimC4_invariant_vacuous_and_session_violates_it :
    (∀ (store : Store) (req : SaleRequest),
        (processSale store req).2 = store ∧ (processSale store req).1.isCreated = false)
    ∧ (loopOf storeE reqE).toOption.map
        (fun st => st.sessionProducts.map Product.currentStock) = some [some 1]
    ∧ jsOrQ prodE.currentStock 0 - (2 + 3) ≠ (1 : ℚ)
    ∧ (loopOf storeE reqE).toOption.map
        (fun st => st.sessionProducts.map (fun p => p.stockHistory.length)) = some [2] := by
  refine ⟨fun store req => ⟨processSale_store_eq store req, processSale_never_created store req⟩,
    ?_, ?_, ?_⟩ <;> decide

/-- Two-product store for the rollback scenario: `Alpha` has stock 5,
`Beta` has stock 1. -/
def storeC2 : Store :=
  { products :=
      [{ id := "pa", name := "Alpha", category := none, barcode := none,
         buyingPrice := some 2, minSellingPrice := some 4, sellingPrice := none,
         currentStock := some 5, stockHistory := [] },
       { id := "pb", name := "Beta", category := none, barcode := none,
         buyingPrice := some 3, minSellingPrice := some 6, sellingPrice := none,
         currentStock := some 1, stockHistory := [] }]
    transactions := [] }

/-- Cart whose first item (2 of `Alpha`) is decrementable but whose second
item (3 of `Beta`) exceeds the available stock 1. -/
def reqC2 : SaleRequest := plainReq 26 [plainItem "pa" 2, plainItem "pb" 3]

/-- C2: whenever a sale ends in the `INSUFFICIENT_STOCK` response - in
particular when a later cart item's decrement failed after earlier items
were already decremented inside the session - the committed store is exactly
the initial one: every session-local stock write is rolled back by the
aborted `withTransaction`, and no Transaction document is persisted. -/
theorem claimC2_insufficient_stock_rolls_back (store : Store) (req : SaleRequest)
    (name : String) (available requested : ℚ)
    (h : (processSale store req).1 = .insufficientStock name available requested) :
    (processSale store req).1.statusCode = 400
    ∧ (processSale store req).2 = store
    ∧ (processSale store req).2.products = store.products
    ∧ (processSale store req).2.transactions = store.transactions := by
  refine ⟨by rw [h]; rfl, processSale_store_eq store req, ?_, ?_⟩ <;>
    rw [processSale_store_eq store req]

/-- Witness for C2: on `storeC2`/`reqC2` the second item fails with
`InsufficientStock` (`Beta`, available 1, requested 3) and the store -
including `Alpha`, whose session decrement was issued first - is unchanged. -/
theorem claimC2_insufficient_stock_rolls_back_witness :
    (processSale storeC2 reqC2).1 = .insufficientStock "Beta" 1 3
    ∧ (processSale storeC2 reqC2).2 = storeC2 :=
  ⟨by decide, (claimC2_insufficient_stock_rolls_back storeC2 reqC2 "Beta" 1 3 (by decide)).2.1⟩

/-- When the shop check and the validation pass, the handler's outcome is
determined by the item loop: a thrown error is mapped by the `catch` block,
and loop completion reaches the line-508 `ReferenceError`. -/
theorem processSale_eq_loop (store : Store) (req : SaleRequest) (pm : String)
    (hshop : ¬ finalShopIdOf req = "")
    (hpm : req.paymentMethod = some pm)
    (hval : validationErrors pm req = []) :
    processSale store req =
      match loopOf store req with
      | .error e => (catchMap e, store)
      | .ok _ => (catchMap .refErrorTotalCost, store) := by
  unfold processSale loopOf
  rw [if_neg hshop, hpm]
  simp [hval]

/-- A loop iteration on an item whose product resolves and whose stock check
does not fail returns `ok`; the iteration does not inspect the accumulated
state to decide success. -/
theorem processItem_ok_exists (db0 : ProductDB) (status ref shopId cashier : String)
    (st : LoopState) (item : SaleItem) (p : Product)
    (hp : lookupProduct db0 item.productId = some p)
    (hok : status = "completed" → ¬ jsOrQ p.currentStock 0 < jsOrQ item.quantity 1) :
    ∃ st1, processItem db0 status ref shopId cashier st item = .ok st1 := by
  unfold processItem
  rw [hp]
  dsimp only
  by_cases hs : status = "completed"
  · rw [if_neg (by simp [hs, hok hs])]
    rw [if_pos hs]
    exact ⟨_, rfl⟩
  · rw [if_neg (by simp [hs])]
    rw [if_neg hs]
    exact ⟨_, rfl⟩

/-- In a completed sale whose cart items all resolve against the snapshot,
if some item requests more than its product's snapshot stock then the item
loop throws `InsufficientStock` carrying that item's product name, snapshot
stock and requested quantity (the first such item in cart order provides the
error; the conclusion exhibits it). -/
theorem processItems_insufficient (db0 : ProductDB) (ref shopId cashier : String) :
    ∀ (items : List SaleItem) (st : LoopState),
      (∀ it ∈ items, ∃ p, lookupProduct db0 it.productId = some p) →
      (∃ it ∈ items, ∃ p, lookupProduct db0 it.productId = some p ∧
          jsOrQ p.currentStock 0 < jsOrQ it.quantity 1) →
      ∃ it ∈ items, ∃ p, lookupProduct db0 it.productId = some p ∧
        jsOrQ p.currentStock 0 < jsOrQ it.quantity 1 ∧
        processItems db0 "completed" ref shopId cashier st items =
          .error (.insufficientStock p.name (jsOrQ p.currentStock 0) (jsOrQ it.quantity 1)) := by
  intro items
  induction items with
  | nil => intro st hall hex; simp at hex
  | cons item rest ih =>
      intro st hall hex
      by_cases hfail : ∃ p, lookupProduct db0 item.productId = some p ∧
          jsOrQ p.currentStock 0 < jsOrQ item.quantity 1
      · obtain ⟨p, hp, hlt⟩ := hfail
        refine ⟨item, List.mem_cons_self item rest, p, hp, hlt, ?_⟩
        have hthrow : processItem db0 "completed" ref shopId cashier st item =
            .error (.insufficientStock p.name (jsOrQ p.currentStock 0)
              (jsOrQ item.quantity 1)) := by
          unfold processItem
          rw [hp]
          dsimp only
          rw [if_pos ⟨rfl, hlt⟩]
        unfold processItems
        rw [hthrow]
      · obtain ⟨p, hp⟩ := hall item (List.mem_cons_self item rest)
        have hnlt : ¬ jsOrQ p.currentStock 0 < jsOrQ item.quantity 1 :=
          fun hlt => hfail ⟨p, hp, hlt⟩
        obtain ⟨st1, hst1⟩ :=
          processItem_ok_exists db0 "completed" ref shopId cashier st item p hp
            (fun _ => hnlt)
        obtain ⟨it, hit, q, hq, hqlt, herr⟩ := ih st1
          (fun x hx => hall x (List.mem_cons_of_mem item hx))
          (by
            obtain ⟨it, hit, q, hq, hqlt⟩ := hex
            rcases List.mem_cons.mp hit with heq | hmem
            · subst heq; rw [hp] at hq; cases hq; exact absurd hqlt hnlt
            · exact ⟨it, hmem, q, hq, hqlt⟩)
        refine ⟨it, List.mem_cons_of_mem item hit, q, hq, hqlt, ?_⟩
        unfold processItems
        rw [hst1]
        exact herr

/-- Scenario B request: sale of quantity 11 against the scenario-A product
(stock 10). -/
def reqB : SaleRequest := plainReq 88 [plainItem "p1" 11]

/-- C5: a completed-sale request that passes the shop check and validation,
all of whose items resolve to catalog products, and some item of which
requests more than its product's stock, fails with the 400
`INSUFFICIENT_STOCK` response carrying the offending product's name, its
available stock and the requested quantity, and leaves the store unchanged.
(The reported triple belongs to the first failing cart item; the conclusion
exhibits it as a cart item.) -/
theorem claimC5_insufficient_stock_rejected (store : Store) (req : SaleRequest)
    (pm : String) (items : List SaleItem)
    (hshop : ¬ finalShopIdOf req = "")
    (hpm : req.paymentMethod = some pm)
    (hval : validationErrors pm req = [])
    (hstatus : statusOf req = "completed")
    (hitems : req.items = some items)
    (hall : ∀ it ∈ items, ∃ p, lookupProduct store.products it.productId = some p)
    (hex : ∃ it ∈ items, ∃ p, lookupProduct store.products it.productId = some p ∧
        jsOrQ p.currentStock 0 < jsOrQ it.quantity 1) :
    ∃ it ∈ items, ∃ p, lookupProduct store.products it.productId = some p ∧
      jsOrQ p.currentStock 0 < jsOrQ it.quantity 1 ∧
      (processSale store req).1 =
        .insufficientStock p.name (jsOrQ p.currentStock 0) (jsOrQ it.quantity 1) ∧
      (processSale store req).1.statusCode = 400 ∧
      (processSale store req).1.errCode = some "INSUFFICIENT_STOCK" ∧
      (processSale store req).2 = store := by
  obtain ⟨it, hit, p, hp, hlt, herr⟩ :=
    processItems_insufficient store.products (jsOrS req.transactionNumber "pending")
      (finalShopIdOf req) (req.cashierName.getD "") items
      (LoopState.init store.products) hall hex
  have hloop : loopOf store req =
      .error (.insufficientStock p.name (jsOrQ p.currentStock 0) (jsOrQ it.quantity 1)) := by
    unfold loopOf
    rw [hstatus, hitems]
    exact herr
  have hps := processSale_eq_loop store req pm hshop hpm hval
  rw [hloop] at hps
  exact ⟨it, hit, p, hp, hlt, by rw [hps]; rfl, by rw [hps]; rfl, by rw [hps]; rfl,
    processSale_store_eq store req⟩

/-- Witness for C5: scenario B - quantity 11 against stock 10 yields the 400
`INSUFFICIENT_STOCK` response carrying name `Widget`, available 10,
requested 11, with the stock unchanged. -/
theorem claimC5_insufficient_stock_rejected_witness :
    (processSale storeA reqB).1 = .insufficientStock "Widget" 10 11
    ∧ (processSale storeA reqB).1.statusCode = 400
    ∧ (processSale storeA reqB).1.errCode = some "INSUFFICIENT_STOCK"
    ∧ (processSale storeA reqB).2 = storeA := by
  obtain ⟨it, hit, p, hp, hlt, h1, h2, h3, h4⟩ :=
    claimC5_insufficient_stock_rejected storeA reqB "cash" [plainItem "p1" 11]
      (by decide) rfl (by decide) rfl rfl
      (by
        intro it hit
        rw [List.mem_singleton] at hit
        subst hit
        exact ⟨prodA, by decide⟩)
      ⟨plainItem "p1" 11, List.mem_singleton.mpr rfl, prodA, by decide, by decide⟩
  rw [List.mem_singleton] at hit
  subst hit
  rw [show p = prodA from by
    rw [show lookupProduct storeA.products (plainItem "p1" 11).productId = some prodA
      from by decide] at hp
    exact (Option.some_inj.mp hp).symm] at h1
  exact ⟨by rw [h1]; decide, h2, h3, h4⟩

/-- If every item before some cart position resolves and passes its stock
check (the stock check only applies to completed sales), and the item at
that position does not resolve against the snapshot, the item loop throws
`ProductNotFound` naming that item's identifier. -/
theorem processItems_notfound (db0 : ProductDB) (status ref shopId cashier : String) :
    ∀ (pre : List SaleItem) (st : LoopState) (bad : SaleItem) (rest : List SaleItem),
      (∀ it ∈ pre, ∃ p, lookupProduct db0 it.productId = some p ∧
          (status = "completed" → ¬ jsOrQ p.currentStock 0 < jsOrQ it.quantity 1)) →
      lookupProduct db0 bad.productId = none →
      processItems db0 status ref shopId cashier st (pre ++ bad :: rest) =
        .error (.productNotFound (bad.productId.getD "undefined")) := by
  intro pre
  induction pre with
  | nil =>
      intro st bad rest _ hbad
      have hthrow : processItem db0 status ref shopId cashier st bad =
          .error (.productNotFound (bad.productId.getD "undefined")) := by
        unfold processItem
        rw [hbad]
      rw [List.nil_append]
      unfold processItems
      rw [hthrow]
  | cons item pre ih =>
      intro st bad rest hpre hbad
      obtain ⟨p, hp, hok⟩ := hpre item (List.mem_cons_self item pre)
      obtain ⟨st1, hst1⟩ :=
        processItem_ok_exists db0 status ref shopId cashier st item p hp hok
      rw [List.cons_append]
      unfold processItems
      rw [hst1]
      exact ih st1 bad rest (fun x hx => hpre x (List.mem_cons_of_mem item hx)) hbad

/-- C6: a request that passes the shop check and validation, whose cart
holds an unresolvable product identifier preceded only by items that resolve
and pass their stock checks, fails with the 404 `PRODUCT_NOT_FOUND` response
naming the offending identifier, and no stock of any other cart item remains
decremented (the store is unchanged). -/
theorem claimC6_unknown_product_rejected (store : Store) (req : SaleRequest)
    (pm : String) (pre : List SaleItem) (bad : SaleItem) (rest : List SaleItem)
    (hshop : ¬ finalShopIdOf req = "")
    (hpm : req.paymentMethod = some pm)
    (hval : validationErrors pm req = [])
    (hitems : req.items = some (pre ++ bad :: rest))
    (hpre : ∀ it ∈ pre, ∃ p, lookupProduct store.products it.productId = some p ∧
        (statusOf req = "completed" → ¬ jsOrQ p.currentStock 0 < jsOrQ it.quantity 1))
    (hbad : lookupProduct store.products bad.productId = none) :
    (processSale store req).1 = .productNotFound (bad.productId.getD "undefined")
    ∧ (processSale store req).1.statusCode = 404
    ∧ (processSale store req).1.errCode = some "PRODUCT_NOT_FOUND"
    ∧ (processSale store req).2 = store := by
  have hloop : loopOf store req =
      .error (.productNotFound (bad.productId.getD "undefined")) := by
    unfold loopOf
    rw [hitems]
    exact processItems_notfound store.products (statusOf req)
      (jsOrS req.transactionNumber "pending") (finalShopIdOf req)
      (req.cashierName.getD "") pre (LoopState.init store.products) bad rest hpre hbad
  have hps := processSale_eq_loop store req pm hshop hpm hval
  rw [hloop] at hps
  exact ⟨by rw [hps]; rfl, by rw [hps]; rfl, by rw [hps]; rfl,
    processSale_store_eq store req⟩

/-- Cart whose first item resolves (2 of the scenario-A product, stock 10)
and whose second names the unknown identifier `X`. -/
def reqC6 : SaleRequest := plainReq 20 [plainItem "p1" 2, plainItem "X" 1]

/-- Witness for C6: the unknown identifier `X` behind a decrementable item
yields the 404 `PRODUCT_NOT_FOUND` response naming `X` and leaves the store
unchanged. -/
theorem claimC6_unknown_product_rejected_witness :
    (processSale storeA reqC6).1 = .productNotFound "X"
    ∧ (processSale storeA reqC6).1.statusCode = 404
    ∧ (processSale storeA reqC6).1.errCode = some "PRODUCT_NOT_FOUND"
    ∧ (processSale storeA reqC6).2 = storeA := by
  have h := claimC6_unknown_product_rejected storeA reqC6 "cash"
    [plainItem "p1" 2] (plainItem "X" 1) []
    (by decide) rfl (by decide) rfl
    (by
      intro it hit
      rw [List.mem_singleton] at hit
      subst hit
      exact ⟨prodA, by decide, fun _ => by decide⟩)
    (by decide)
  exact ⟨h.1, h.2.1, h.2.2.1, h.2.2.2⟩

/-- The `!totalAmount || totalAmount <= 0` test of line 401 as a
proposition. -/
def invalidTotal : Option ℚ → Prop
  | none => True
  | some t => t ≤ 0

/-- The `!items || !Array.isArray(items) || items.length === 0` test of
line 402 as a proposition. -/
def emptyItems (x : Option (List SaleItem)) : Prop := x = none ∨ x = some []

/-- The `!cashierId || !cashierName` test of line 403 as a proposition. -/
def missingCashier (req : SaleRequest) : Prop :=
  jsOrS req.cashierId "" = "" ∨ jsOrS req.cashierName "" = ""

instance (x : Option ℚ) : Decidable (invalidTotal x) := by
  unfold invalidTotal
  cases x <;> infer_instance

instance (x : Option (List SaleItem)) : Decidable (emptyItems x) := by
  unfold emptyItems
  infer_instance

instance (req : SaleRequest) : Decidable (missingCashier req) := by
  unfold missingCashier
  infer_instance

theorem mem_singleton_guard (c : Prop) [Decidable c] (m x : String) :
    x ∈ (if c then [m] else []) ↔ (x = m ∧ c) := by
  by_cases h : c <;> simp [h]

theorem validationErrors_eq (pm : String) (req : SaleRequest) :
    validationErrors pm req =
      (if pm = "" then ["Payment method is required"] else []) ++
      (if ¬ jsToLower pm ∈ acceptedPaymentMethods
        then ["Payment method must be cash, mpesa, bank, or card"] else []) ++
      (if invalidTotal req.totalAmount then ["Valid total amount is required"] else []) ++
      (if emptyItems req.items then ["Transaction items are required"] else []) ++
      (if missingCashier req then ["Cashier information is required"] else []) := by
  unfold validationErrors invalidTotal emptyItems missingCashier
  cases req.totalAmount <;> cases req.items <;>
    by_cases h2 : jsToLower pm ∈ acceptedPaymentMethods <;> simp [h2]

/-- C7 counterexample: a request with no `paymentMethod` (and an empty
`items` list, another violation the claim says would be collected) does not
receive a 400 with the collected error list: line 398 calls `toLowerCase` on
`undefined`, the `TypeError` is caught as an unexpected failure, and the
caller gets 500 `TRANSACTION_FAILED`. -/
def reqC7cx : SaleRequest := { plainReq 10 [] with paymentMethod := none }

theorem claimC7_missing_payment_method_crashes :
    (processSale storeA reqC7cx).1 =
      .transactionFailed "Cannot read properties of undefined reading toLowerCase"
    ∧ (processSale storeA reqC7cx).1.statusCode = 500
    ∧ (processSale storeA reqC7cx).1.errCode = some "TRANSACTION_FAILED" := by
  decide

/-- C7 as amended: when the shop identifier is present (a missing one is
rejected alone, earlier, by line 388) and `paymentMethod` is present as a
string (an absent one crashes to a 500, see the counterexample), the four
collected checks - unrecognised payment method (case-insensitively outside
cash/mpesa/bank/card; the empty string also adds the required-message),
missing/non-positive `totalAmount`, missing/empty `items`, missing cashier
id or name - are returned together in one 400 `validationFailed` response
holding exactly the violated messages, with no mutation performed. -/
theorem claimC7_validation_collected (store : Store) (req : SaleRequest) (pm : String)
    (hshop : ¬ finalShopIdOf req = "")
    (hpm : req.paymentMethod = some pm)
    (hne : validationErrors pm req ≠ []) :
    (processSale store req).1 = .validationFailed (validationErrors pm req)
    ∧ (processSale store req).1.statusCode = 400
    ∧ (processSale store req).2 = store
    ∧ ("Payment method is required" ∈ validationErrors pm req ↔ pm = "")
    ∧ ("Payment method must be cash, mpesa, bank, or card" ∈ validationErrors pm req
        ↔ ¬ jsToLower pm ∈ acceptedPaymentMethods)
    ∧ ("Valid total amount is required" ∈ validationErrors pm req
        ↔ invalidTotal req.totalAmount)
    ∧ ("Transaction items are required" ∈ validationErrors pm req
        ↔ emptyItems req.items)
    ∧ ("Cashier information is required" ∈ validationErrors pm req
        ↔ missingCashier req) := by
  have hps : processSale store req = (.validationFailed (validationErrors pm req), store) := by
    unfold processSale
    rw [if_neg hshop, hpm]
    dsimp only
    rw [if_pos hne]
  refine ⟨by rw [hps], by rw [hps]; rfl, by rw [hps], ?_, ?_, ?_, ?_, ?_⟩ <;>
    rw [validationErrors_eq] <;>
    simp [List.mem_append, mem_singleton_guard]

/-- A request violating all four collected checks at once: unrecognised
payment method `credit`, no `totalAmount`, empty `items`, no cashier. -/
def reqC7w : SaleRequest :=
  { saleType := none, status := none, paymentMethod := some "credit",
    totalAmount := none, amountPaid := none, changeGiven := none, subtotal := none,
    taxAmount := none, discountAmount := none, items := some [], customerName := none,
    customerPhone := none, shop := some "shop1", shopId := none, shopName := none,
    cashierId := none, cashierName := none, notes := none, transactionNumber := none }

/-- Witness for the amended C7: all four violations come back together in
one 400 response, and the store is untouched. -/
theorem claimC7_validation_collected_witness :
    (processSale storeA reqC7w).1 =
      .validationFailed
        ["Payment method must be cash, mpesa, bank, or card",
         "Valid total amount is required",
         "Transaction items are required",
         "Cashier information is required"]
    ∧ (processSale storeA reqC7w).1.statusCode = 400
    ∧ (processSale storeA reqC7w).2 = storeA := by
  have h := claimC7_validation_collected storeA reqC7w "credit"
    (by decide) rfl (by decide)
  exact ⟨h.1.trans (by decide), h.2.1, h.2.2.1⟩

/-- Each `ok` loop iteration preserves the running-totals relation
`profit = amount - cost`: the iteration adds the line's total, cost and
`total - cost` to the three accumulators. -/
theorem processItem_profit_inv (db0 : ProductDB) (status ref shopId cashier : String)
    (st : LoopState) (item : SaleItem) (st1 : LoopState)
    (hst : st.calculatedTotalProfit = st.calculatedTotalAmount - st.calculatedTotalCost)
    (h : processItem db0 status ref shopId cashier st item = .ok st1) :
    st1.calculatedTotalProfit = st1.calculatedTotalAmount - st1.calculatedTotalCost := by
  unfold processItem at h
  cases hl : lookupProduct db0 item.productId with
  | none => rw [hl] at h; cases h
  | some p =>
      rw [hl] at h
      dsimp only at h
      split at h
      · cases h
      · split at h <;> cases h <;> unfold pricedItem <;> dsimp only <;> rw [hst] <;> ring

/-- The item loop preserves `profit = amount - cost` across any number of
`ok` iterations. -/
theorem processItems_profit_inv (db0 : ProductDB) (status ref shopId cashier : String) :
    ∀ (items : List SaleItem) (st st1 : LoopState),
      st.calculatedTotalProfit = st.calculatedTotalAmount - st.calculatedTotalCost →
      processItems db0 status ref shopId cashier st items = .ok st1 →
      st1.calculatedTotalProfit = st1.calculatedTotalAmount - st1.calculatedTotalCost := by
  intro items
  induction items with
  | nil =>
      intro st st1 hst h
      unfold processItems at h
      cases h
      exact hst
  | cons item rest ih =>
      intro st st1 hst h
      unfold processItems at h
      cases hpi : processItem db0 status ref shopId cashier st item with
      | error e => rw [hpi] at h; cases h
      | ok st2 =>
          rw [hpi] at h
          exact ih st2 st1
            (processItem_profit_inv db0 status ref shopId cashier st item st2 hst hpi) h

instance {ε α : Type} [DecidableEq ε] [DecidableEq α] : DecidableEq (Except ε α) := fun a b =>
  match a, b with
  | .error x, .error y =>
      if h : x = y then .isTrue (h ▸ rfl) else .isFalse (fun hh => h (by injection hh))
  | .error _, .ok _ => .isFalse (fun hh => Except.noConfusion hh)
  | .ok _, .error _ => .isFalse (fun hh => Except.noConfusion hh)
  | .ok x, .ok y =>
      if h : x = y then .isTrue (h ▸ rfl) else .isFalse (fun hh => h (by injection hh))

/-- The stock-history entry the scenario-A sale appends in-session. -/
def evA : StockEvent :=
  { type := "sale", quantity := -3, newStock := 7,
    reference := "Transaction: pending", shop := "shop1", cashier := "Alice" }

/-- The scenario-A product after the session-local decrement. -/
def prodA7 : Product := { prodA with currentStock := some 7, stockHistory := [evA] }

/-- The scenario-A priced line item. -/
def tiA : TxnItem :=
  { productId := some "p1", productName := "Widget", category := "Drinks",
    barcode := "B001", quantity := 3, unitPrice := 8, price := 8,
    totalPrice := 24, costPrice := 5, profit := 9, profitMargin := 37.5 }

/-- The scenario-A stock-update summary entry. -/
def suA : StockUpdate :=
  { productId := some "p1", productName := "Widget", oldStock := 10,
    newStock := 7, quantitySold := 3 }

/-- The loop state after the scenario-A item loop. -/
def stA : LoopState :=
  { calculatedTotalAmount := 24, calculatedTotalCost := 15, calculatedTotalProfit := 9,
    transactionItems := [tiA], stockUpdates := [suA], sessionProducts := [prodA7] }

/-- Scenario-A cart but with a caller-supplied `totalAmount` of 30, larger
than the 24 the line items sum to (header-level adjustment). -/
def reqC8 : SaleRequest := plainReq 30 [plainItem "p1" 3]

/-- C8 counterexample: on the divergent-total request the finalization
as written (lines 506-541, embedded as `finalizeSale`) sets
`totalAmount = 30` (caller value), `totalCost = 15`, but
`totalProfit = 9` - the sum of line profits - which differs from
`totalAmount - totalCost = 15`; the claim's `holds also when the
caller-supplied totalAmount differs` is false.  (And the handler itself
persists nothing at all: it answers 500 from the line-508 `ReferenceError`.) -/
theorem claimC8_divergent_total_breaks_identity :
    loopOf storeA reqC8 = .ok stA
    ∧ (processSale storeA reqC8).1.statusCode = 500
    ∧ (finalizeSale reqC8 stA "TXN-1").totalAmount = 30
    ∧ (finalizeSale reqC8 stA "TXN-1").totalCost = 15
    ∧ (finalizeSale reqC8 stA "TXN-1").totalProfit = 9
    ∧ (finalizeSale reqC8 stA "TXN-1").totalProfit ≠
        (finalizeSale reqC8 stA "TXN-1").totalAmount -
          (finalizeSale reqC8 stA "TXN-1").totalCost := by
  decide

/-- C8 as amended: for a validated request whose item loop completes with
state `st`, the transaction record the finalization would construct has
`totalProfit` equal to the summed line profits, which equals
`totalAmount - totalCost` exactly when the caller-supplied `totalAmount` is
absent/zero or agrees with the summed line totals; and the handler itself
answers 500 with the store unchanged (nothing is ever persisted). -/
theorem claimC8_profit_identity_when_totals_agree (store : Store) (req : SaleRequest)
    (pm : String) (st : LoopState) (gen : String)
    (hshop : ¬ finalShopIdOf req = "")
    (hpm : req.paymentMethod = some pm)
    (hval : validationErrors pm req = [])
    (hloop : loopOf store req = .ok st)
    (hta : jsOrQ req.totalAmount st.calculatedTotalAmount = st.calculatedTotalAmount) :
    (finalizeSale req st gen).totalProfit =
      (finalizeSale req st gen).totalAmount - (finalizeSale req st gen).totalCost
    ∧ (processSale store req).1.statusCode = 500
    ∧ (processSale store req).2 = store := by
  have hloop' : processItems store.products (statusOf req)
      (jsOrS req.transactionNumber "pending") (finalShopIdOf req)
      (req.cashierName.getD "") (LoopState.init store.products)
      (req.items.getD []) = .ok st := by
    rw [← hloop]
    rfl
  have hinv := processItems_profit_inv store.products (statusOf req)
    (jsOrS req.transactionNumber "pending") (finalShopIdOf req)
    (req.cashierName.getD "") (req.items.getD []) (LoopState.init store.products) st
    (by unfold LoopState.init; norm_num) hloop'
  have hps := processSale_eq_loop store req pm hshop hpm hval
  rw [hloop] at hps
  refine ⟨?_, by rw [hps]; rfl, by rw [hps]⟩
  unfold finalizeSale
  dsimp only
  rw [hta, hinv]

/-- Witness for the amended C8: with the scenario-A request (caller total 24
equal to the line sum) the finalized record satisfies
`totalProfit = totalAmount - totalCost`, and the handler answers 500 with
the store unchanged. -/
theorem claimC8_profit_identity_when_totals_agree_witness :
    (finalizeSale reqA stA "TXN-1").totalProfit =
      (finalizeSale reqA stA "TXN-1").totalAmount - (finalizeSale reqA stA "TXN-1").totalCost
    ∧ (processSale storeA reqA).1.statusCode = 500
    ∧ (processSale storeA reqA).2 = storeA :=
  claimC8_profit_identity_when_totals_agree storeA reqA "cash" stA "TXN-1"
    (by decide) rfl (by decide) (by decide) (by decide)

/-- Cart line with an explicit negative `totalPrice` of -10 and no unit
price override. -/
def itemC9 : SaleItem :=
  { productId := some "p1", quantity := some 2, unitPrice := none, price := none,
    totalPrice := some (-10), productName := none, category := none, barcode := none }

/-- C9 counterexample: the pricing loop takes a caller-supplied explicit
line total as-is (`item.totalPrice || itemPrice * itemQuantity`, line 447) -
there is no clamp, so the priced line total is -10, refuting `the resulting
line total is never negative`. -/
theorem claimC9_negative_total_not_clamped :
    (pricedItem itemC9 prodA).totalPrice = -10
    ∧ (pricedItem itemC9 prodA).totalPrice < 0
    ∧ (pricedItem itemC9 prodA).unitPrice = 8 := by
  decide

/-- C9 as amended: the effective unit price is the caller's nonzero
`unitPrice` (used as-is, even when negative), else - when neither caller
price field is set - the catalog `minSellingPrice` when nonzero; an explicit
nonzero line total wins and is used as-is (it may be negative), else the
line total is `unitPrice * quantity`; the line profit is
`totalPrice - costPrice * quantity`; and `profitMargin` is
`profit / totalPrice * 100` when `totalPrice > 0`, else 0. -/
theorem claimC9_pricing_characterized (item : SaleItem) (product : Product) :
    (∀ u : ℚ, item.unitPrice = some u → u ≠ 0 → (pricedItem item product).unitPrice = u)
    ∧ (item.unitPrice = none → item.price = none →
        ∀ m : ℚ, product.minSellingPrice = some m → m ≠ 0 →
          (pricedItem item product).unitPrice = m)
    ∧ (∀ t : ℚ, item.totalPrice = some t → t ≠ 0 →
        (pricedItem item product).totalPrice = t)
    ∧ (item.totalPrice = none →
        (pricedItem item product).totalPrice =
          (pricedItem item product).unitPrice * jsOrQ item.quantity 1)
    ∧ ((pricedItem item product).profit =
        (pricedItem item product).totalPrice -
          (pricedItem item product).costPrice * (pricedItem item product).quantity)
    ∧ (0 < (pricedItem item product).totalPrice →
        (pricedItem item product).profitMargin =
          (pricedItem item product).profit / (pricedItem item product).totalPrice * 100)
    ∧ (¬ 0 < (pricedItem item product).totalPrice →
        (pricedItem item product).profitMargin = 0) := by
  unfold pricedItem
  dsimp only
  refine ⟨?_, ?_, ?_, ?_, rfl, ?_, ?_⟩
  · intro u hu hne
    simp [jsOrQ, hu, hne]
  · intro h1 h2 m hm hmne
    simp [jsOrQ, h1, h2, hm, hmne]
  · intro t ht htne
    simp [jsOrQ, ht, htne]
  · intro h
    simp [jsOrQ, h]
  · intro h
    rw [if_pos h]
  · intro h
    rw [if_neg h]

/-- Cart line with a positive unit-price override of 9. -/
def itemC9w : SaleItem :=
  { productId := some "p1", quantity := some 2, unitPrice := some 9, price := none,
    totalPrice := none, productName := none, category := none, barcode := none }

/-- Witness for the amended C9: a positive override of 9 is used, the line
total defaults to 9 * 2 = 18, and the margin follows the profit/total
formula. -/
theorem claimC9_pricing_characterized_witness :
    (pricedItem itemC9w prodA).unitPrice = 9
    ∧ (pricedItem itemC9w prodA).totalPrice = 18
    ∧ (pricedItem itemC9w prodA).profitMargin =
        (pricedItem itemC9w prodA).profit / (pricedItem itemC9w prodA).totalPrice * 100 := by
  have h := claimC9_pricing_characterized itemC9w prodA
  exact ⟨h.1 9 rfl (by norm_num), (h.2.2.2.1 rfl).trans (by decide),
    h.2.2.2.2.2.1 (by decide)⟩

/-- C10: in the transaction record as constructed by the finalization
(lines 506-541, embedded as `finalizeSale`; at runtime unreachable - the
line-508 `ReferenceError` fires first), a missing or zero caller
`amountPaid` defaults to the record's `totalAmount`
(`amountPaid: amountPaid || finalTotalAmount`, line 521), and a positive
caller `amountPaid` is stored unchanged. -/
theorem claimC10_amountPaid_defaults (req : SaleRequest) (pm : String)
    (st : LoopState) (gen : String)
    (_hpm : req.paymentMethod = some pm)
    (_hval : validationErrors pm req = []) :
    ((req.amountPaid = none ∨ req.amountPaid = some 0) →
      (finalizeSale req st gen).amountPaid = (finalizeSale req st gen).totalAmount)
    ∧ (∀ p : ℚ, req.amountPaid = some p → 0 < p →
        (finalizeSale req st gen).amountPaid = p) := by
  unfold finalizeSale
  dsimp only
  constructor
  · rintro (h | h) <;> simp [jsOrQ, h]
  · intro p hp hpos
    simp [jsOrQ, hp, hpos.ne']

/-- Scenario-A request with a positive `amountPaid` of 50. -/
def reqC10p : SaleRequest := { reqA with amountPaid := some 50 }

/-- Witness for C10: the scenario-A request omits `amountPaid`, so the
record's `amountPaid` equals its `totalAmount`; with `amountPaid = 50`
supplied, 50 is stored unchanged. -/
theorem claimC10_amountPaid_defaults_witness :
    (finalizeSale reqA stA "T1").amountPaid = (finalizeSale reqA stA "T1").totalAmount
    ∧ (finalizeSale reqC10p stA "T1").amountPaid = 50 :=
  ⟨(claimC10_amountPaid_defaults reqA "cash" stA "T1" rfl (by decide)).1 (Or.inl rfl),
   (claimC10_amountPaid_defaults reqC10p "cash" stA "T1" rfl (by decide)).2 50 rfl
     (by norm_num)⟩
